import Mathlib

set_option maxHeartbeats 1000000

/- Shallow embedding of the Pakistan RP community bot core logic:
   rule search and offense escalation (src/systems/rule_manager.py),
   the ticket lifecycle (src/systems/ticket_system.py, src/core/community_bot.py)
   and the helpers they use (src/utils/helpers.py, src/core/database.py).

   Modeling conventions:
   - Python dicts become insertion-ordered association lists (List (String × _));
     inserting a fresh key appends at the end, del removes the key.
   - Timestamps (datetime / isoformat strings) become Nat seconds since epoch;
     their human rendering is abstracted as the decimal numeral.
   - Fallible operations return Option or carry an explicit success flag; the
     outcome of an external file write is an explicit Bool input.
   - External collaborators (Discord channels and their message history, the
     SQLite store) are explicit inputs. -/

/-- One punishment entry (the value of one rung of a rule's punishment ladder):
    the dict with keys type / duration / fine / details used throughout
    rule_manager.py. -/
structure Punishment where
  type : String
  duration : Option Nat
  fine : Nat
  details : String
deriving DecidableEq, Repr

/-- A rule's punishment ladder: the punishments dict of a rule record. Each rung
    is optional because the dict is read with .get and a rung key may be absent. -/
structure PunishmentLadder where
  first_offense : Option Punishment
  second_offense : Option Punishment
  third_offense : Option Punishment
  severe : Option Punishment
deriving DecidableEq, Repr

/-- A rule record of the rules database (rule_manager.py). Bookkeeping fields not
    read by any modeled operation (created_by, created_at, last_updated,
    appeal_allowed, appeal_process, min_staff_rank) are omitted. The punishments
    field is optional because get_appropriate_punishment tests its presence. -/
structure Rule where
  title : String
  content : String
  category : String
  subcategory : String
  keywords : List String
  priority : String
  punishments : Option PunishmentLadder
deriving DecidableEq, Repr

/-- The in-memory rules database self.rules_database: a dict rule_id → rule,
    modeled as an insertion-ordered association list. -/
abbrev RulesDb := List (String × Rule)

/-- Python substring test q in s (on already-lowercased strings). -/
def strIn (q s : String) : Bool :=
  decide (q.data <:+: s.data)

/-- str.lower(), character-wise (the rule texts are ASCII; Unicode case
    folding beyond Char.toLower is not modeled). -/
def strToLower (s : String) : String :=
  ⟨s.data.map Char.toLower⟩

/-- str.upper(), character-wise. -/
def strToUpper (s : String) : String :=
  ⟨s.data.map Char.toUpper⟩

/-- str.startswith. -/
def strStartsWith (s pre : String) : Bool :=
  pre.data.isPrefixOf s.data

/-- str.split on a single-character separator (here always a dash):
    maximal runs between separators, keeping empty pieces. -/
def splitOnChar (sep : Char) (cs : List Char) : List (List Char) :=
  cs.foldr
    (fun c acc =>
      if c == sep then [] :: acc
      else
        match acc with
        | h :: t => (c :: h) :: t
        | [] => [[c]])
    [[]]

/-- Dict lookup db[k] / db.get(k) on an association list. -/
def lookupKey {α : Type} (db : List (String × α)) (k : String) : Option α :=
  (db.find? (fun kv => kv.fst == k)).map (fun kv => kv.snd)

/-- Membership test k in db for a dict modeled as an association list. -/
def hasKey {α : Type} (db : List (String × α)) (k : String) : Bool :=
  db.any (fun kv => kv.fst == k)

/- ### Rule search (RuleManagementSystem.search_rules, rule_manager.py 347-408) -/

/-- One search result: the rule record together with the rule_id and
    search_score keys that search_rules attaches to it. -/
structure SearchHit where
  rule_id : String
  rule : Rule
  search_score : Nat
deriving DecidableEq, Repr

/-- The priority_scores table of search_rules' sort_key, including its
    .get(…, 100) default for unknown priority strings. -/
def priority_scores (p : String) : Nat :=
  if p == "critical" then 1000
  else if p == "high" then 500
  else if p == "medium" then 100
  else if p == "low" then 50
  else 100

/-- sort_key of search_rules: search score plus priority weight. -/
def sort_key (h : SearchHit) : Nat :=
  h.search_score + priority_scores h.rule.priority

/-- The per-rule score accumulation of search_rules for a non-empty query
    (ql is the lowercased query): title 100, each keyword 80 if equal else 40
    if containing, content 30, subcategory 20, rule id 60. -/
def rule_search_score (ql : String) (rule_id : String) (r : Rule) : Nat :=
  (if strIn ql (strToLower r.title) then 100 else 0)
  + r.keywords.foldl
      (fun acc kw =>
        if ql == strToLower kw then acc + 80
        else if strIn ql (strToLower kw) then acc + 40
        else acc) 0
  + (if strIn ql (strToLower r.content) then 30 else 0)
  + (if strIn ql (strToLower r.subcategory) then 20 else 0)
  + (if strIn ql (strToLower rule_id) then 60 else 0)

/-- The category filter of search_rules: with a truthy (non-empty) category,
    skip rules of any other category. -/
def category_excludes (category : Option String) (r : Rule) : Bool :=
  match category with
  | none => false
  | some c => !c.isEmpty && r.category != c

/-- The score variable of search_rules' loop body: the accumulated match score
    for a truthy query, the flat 10 for a category-only search. -/
def hit_score (query : String) (kv : String × Rule) : Nat :=
  if query != "" then rule_search_score (strToLower query) kv.fst kv.snd else 10

/-- The result-collection loop of search_rules: iterate the database in order,
    drop rules failing the category filter, score the rest, and keep those
    with positive score. -/
def searchHits (db : RulesDb) (query : String) (category : Option String) : List SearchHit :=
  db.filterMap (fun kv =>
    if category_excludes category kv.snd then none
    else if hit_score query kv > 0 then some ⟨kv.fst, kv.snd, hit_score query kv⟩
    else none)

/-- The descending comparison results.sort(key=sort_key, reverse=True) sorts by. -/
def hitGE (a b : SearchHit) : Prop :=
  sort_key b ≤ sort_key a

instance : DecidableRel hitGE :=
  fun a b => inferInstanceAs (Decidable (sort_key b ≤ sort_key a))

instance : IsTotal SearchHit hitGE :=
  ⟨fun a b => Nat.le_total (sort_key b) (sort_key a)⟩

instance : IsTrans SearchHit hitGE :=
  ⟨fun _ _ _ hab hbc => le_trans hbc hab⟩

/-- search_rules: early return [] when neither query nor category is given,
    otherwise collect, sort descending by sort_key (Python's stable sort is
    modeled by insertion sort; the claims do not depend on tie order) and
    truncate to limit. -/
def search_rules (db : RulesDb) (query : String) (category : Option String)
    (limit : Nat) : List SearchHit :=
  if query == "" && (match category with | none => true | some c => c.isEmpty) then []
  else (List.insertionSort hitGE (searchHits db query category)).take limit

/- ### Violation counting and the punishment ladder
   (RuleManagementSystem.check_user_violations / get_appropriate_punishment,
    rule_manager.py 735-770; CommunityDatabase.get_user_violations,
    database.py 255-275) -/

/-- A rule_violations row as used by get_user_violations /
    check_user_violations. -/
structure Violation where
  user_id : Nat
  rule_id : String
  expires_at : Option Nat
deriving DecidableEq, Repr

/-- CommunityDatabase.get_user_violations: all rows for the user; when
    active_only, only rows with expires_at NULL or in the future. The ORDER BY
    issued_at DESC is dropped: only the row multiset is ever consumed. -/
def get_user_violations (violations : List Violation) (user_id : Nat)
    (active_only : Bool) (now : Nat) : List Violation :=
  let rows := violations.filter (fun v => v.user_id == user_id)
  if active_only then
    rows.filter (fun v => v.expires_at.isNone || now < v.expires_at.getD 0)
  else rows

/-- check_user_violations: count of the user's violation rows for this rule,
    fetched with active_only=False. -/
def check_user_violations (violations : List Violation) (user_id : Nat)
    (rule_id : String) (now : Nat) : Nat :=
  ((get_user_violations violations user_id false now).filter
    (fun v => v.rule_id == rule_id)).length

/-- The fallback punishment get_appropriate_punishment returns when the rule is
    missing or has no punishments dict. -/
def standardWarning : Punishment :=
  ⟨"warning", none, 5000, "Standard warning + $5,000 fine"⟩

/-- The fallback punishment for a repeat offender whose rule lacks a severe rung. -/
def repeatOffenderBan : Punishment :=
  ⟨"perm_ban", none, 0, "Repeat offender - permanent ban"⟩

/-- get_appropriate_punishment: pick the ladder rung for the user's prior
    offense count for the rule, with the source's .get fallbacks. -/
def get_appropriate_punishment (violations : List Violation) (db : RulesDb)
    (user_id : Nat) (rule_id : String) (now : Nat) : Option Punishment :=
  let offense_count := check_user_violations violations user_id rule_id now
  match lookupKey db rule_id with
  | none => some standardWarning
  | some rule =>
    match rule.punishments with
    | none => some standardWarning
    | some p =>
      if offense_count == 0 then p.first_offense.orElse (fun _ => p.severe)
      else if offense_count == 1 then p.second_offense.orElse (fun _ => p.severe)
      else if offense_count == 2 then p.third_offense.orElse (fun _ => p.severe)
      else some (p.severe.getD repeatOffenderBan)

example :
    check_user_violations
      [⟨1, "GR001", none⟩, ⟨1, "GR002", none⟩, ⟨2, "GR001", none⟩, ⟨1, "GR001", some 5⟩]
      1 "GR001" 100 = 2 := by decide

/- ### Decimal rendering and parsing
   (models Python f-string zero padding and int() on the digit strings arising
   for generated ids; int() additionally tolerates signs, blanks and
   underscores, which cannot occur in generated ids) -/

/-- Big-endian decimal digits of n (empty for 0); fuel-structured so it
    computes by kernel reduction. Called with fuel = n. -/
def decAux : Nat → Nat → List Char
  | 0, _ => []
  | _ + 1, 0 => []
  | fuel + 1, n + 1 =>
    decAux fuel ((n + 1) / 10) ++ [Char.ofNat (48 + (n + 1) % 10)]

/-- Decimal digit characters of n (big-endian, empty for 0). -/
def decimalChars (n : Nat) : List Char :=
  decAux n n

/-- Python format spec 0wd: zero-pad the decimal form of n to width w. -/
def zfill (w : Nat) (n : Nat) : List Char :=
  List.replicate (w - (decimalChars n).length) '0' ++ decimalChars n

def digitVal (c : Char) : Nat := c.toNat - 48

def isDigitChar (c : Char) : Bool := 48 ≤ c.toNat && c.toNat ≤ 57

/-- int() on a char list: some value for a non-empty all-digit string,
    none (a ValueError) otherwise. -/
def parseDecimal (cs : List Char) : Option Nat :=
  if !cs.isEmpty && cs.all isDigitChar then
    some (cs.foldl (fun a c => 10 * a + digitVal c) 0)
  else none

/- ### Adding rules (RuleManagementSystem.add_rule, rule_manager.py 410-494;
   get_category_pfx, 597-609; save_rules_database, 118-126 is modeled by
   the explicit save_ok outcome) -/

/-- The id prefix table with default RU (source name: get_category_prefix,
    rule_manager.py 597-609). -/
def get_category_pfx (category : String) : String :=
  if category == "General Rules" then "GR"
  else if category == "Roleplay Guidelines" then "RP"
  else if category == "Gang Regulations" then "GG"
  else if category == "Vehicle Rules" then "VH"
  else if category == "Property Guidelines" then "PR"
  else if category == "Economic System" then "EC"
  else if category == "Staff Protocols" then "ST"
  else if category == "Event Rules" then "EV"
  else "RU"

/-- The int(rid[len(prefix):]) step of add_rule's id scan: the numeric suffix of
    a rule id under the given prefix, none if the id does not start with the
    prefix or the suffix fails to parse. -/
def suffix_num (pfx : String) (rid : String) : Option Nat :=
  if pfx.data.isPrefixOf rid.data then parseDecimal (rid.data.drop pfx.data.length)
  else none

/-- add_rule's max_num scan over the existing ids with the category prefix. -/
def max_num (db : RulesDb) (pfx : String) : Nat :=
  db.foldl (fun m kv =>
    match suffix_num pfx kv.fst with
    | some n => max m n
    | none => m) 0

/-- The generated rule id f-string prefix + 03d of max_num + 1. -/
def gen_rule_id (db : RulesDb) (pfx : String) : String :=
  ⟨pfx.data ++ zfill 3 (max_num db pfx + 1)⟩

/-- The default punishment ladder add_rule installs when none is supplied. -/
def addRuleDefaultLadder : PunishmentLadder :=
  ⟨some ⟨"warning", none, 5000, "Warning + $5,000 fine"⟩,
   some ⟨"mute", some 60, 10000, "1 hour mute + $10,000 fine"⟩,
   some ⟨"temp_ban", some 1440, 25000, "24 hour ban + $25,000 fine"⟩,
   some ⟨"perm_ban", none, 0, "Permanent ban"⟩⟩

/-- add_rule's priority normalization: lowercase if recognised, else medium. -/
def normalize_priority (p : String) : String :=
  let pl := strToLower p
  if pl == "low" || pl == "medium" || pl == "high" || pl == "critical" then pl
  else "medium"

/-- The categories table self.categories, reduced to the subcategory lists that
    add_rule validates against. -/
abbrev CategoriesDb := List (String × List String)

/-- The rule record add_rule builds (timestamps, creator id and appeal fields
    are omitted as bookkeeping no modeled operation reads). -/
def new_rule_record (category subcategory title content : String)
    (keywords : List String) (priority : String)
    (punishments : Option PunishmentLadder) : Rule :=
  ⟨title, content, category, subcategory, keywords, normalize_priority priority,
   some (punishments.getD addRuleDefaultLadder)⟩

/-- add_rule: generate the next id for the category prefix, validate, insert,
    then persist; on persistence failure the new entry is deleted again and
    failure is reported. The save_ok input is the outcome of
    save_rules_database (an external file write). -/
def add_rule (db : RulesDb) (categories : CategoriesDb)
    (category subcategory title content : String) (keywords : List String)
    (priority : String) (punishments : Option PunishmentLadder)
    (save_ok : Bool) : RulesDb × (Bool × String) :=
  if title == "" || content == "" then
    (db, (false, "Title and content are required"))
  else
    match lookupKey categories category with
    | none => (db, (false, "Invalid category: " ++ category))
    | some subs =>
      if !subs.contains subcategory then
        (db, (false, "Invalid subcategory: " ++ subcategory))
      else if save_ok then
        (db ++ [(gen_rule_id db (get_category_pfx category),
           new_rule_record category subcategory title content keywords
             priority punishments)],
         (true, gen_rule_id db (get_category_pfx category)))
      else
        ((db ++ [(gen_rule_id db (get_category_pfx category),
            new_rule_record category subcategory title content keywords
              priority punishments)]).filter
           (fun kv => kv.fst != gen_rule_id db (get_category_pfx category)),
         (false, "Failed to save rule to database"))

/- ### The ticket lifecycle (AdvancedTicketSystem, ticket_system.py;
   on_message, community_bot.py 519-529) -/

/-- A ticket record of self.active_tickets. The messages list stored on the
    record is omitted: transcripts read the channel history instead. -/
structure Ticket where
  ticket_id : String
  user_id : Nat
  username : String
  display_name : String
  channel_id : Nat
  category : String
  urgency : String
  priority : Nat
  description : String
  created_at : Nat
  status : String
  closed_at : Option Nat
  closed_by : Option Nat
  close_reason : Option String
  staff_involved : List String
  last_activity : Nat
deriving DecidableEq, Repr

/-- A Discord message as consumed by log_message and generate_transcript. -/
structure DMessage where
  author : String
  author_is_bot : Bool
  author_is_staff : Bool
  channel_name : String
  content : String
  created_at : Nat
  attachments : List String
  embeds : Nat
deriving DecidableEq, Repr

/-- The external Discord state the ticket system reads: the existing channels
    (id ↦ full history, oldest first, as fetched with oldest_first=True) and
    the current clock. -/
structure Env where
  channels : List (Nat × List DMessage)
  now : Nat
deriving Repr

/-- bot.get_channel: some history when the channel exists. -/
def get_channel (env : Env) (cid : Nat) : Option (List DMessage) :=
  (env.channels.find? (fun c => c.fst == cid)).map (fun c => c.snd)

/-- The mutable ticket-system state touched by closing: the active-ticket map,
    the resolved-ticket statistic, the saved transcripts and the channels
    deleted by the cleanup sweep. -/
structure TicketState where
  active_tickets : List (String × Ticket)
  tickets_resolved : Nat
  transcripts : List (String × String)
  deleted_channels : List Nat
deriving Repr

/-- utils.helpers.format_duration. -/
def format_duration (seconds : Nat) : String :=
  if seconds = 0 then "0 seconds"
  else
    let days := seconds / 86400
    let hours := (seconds % 86400) / 3600
    let remainder := (seconds % 86400) % 3600
    let minutes := remainder / 60
    let secs := remainder % 60
    let parts :=
      (if days != 0 then [toString days ++ " day" ++ (if days != 1 then "s" else "")] else [])
      ++ (if hours != 0 then [toString hours ++ " hour" ++ (if hours != 1 then "s" else "")] else [])
      ++ (if minutes != 0 then [toString minutes ++ " minute" ++ (if minutes != 1 then "s" else "")] else [])
      ++ (if secs != 0 && days == 0 && hours == 0 then
            [toString secs ++ " second" ++ (if secs != 1 then "s" else "")] else [])
    match parts with
    | [] => "0 seconds"
    | [p] => p
    | [p, q] => p ++ " and " ++ q
    | _ => String.intercalate ", " parts.dropLast ++ ", and " ++ (parts.getLast?.getD "")

/-- calculate_duration: closed (or now, while still open) minus created. -/
def calculate_duration (t : Ticket) (now : Nat) : String :=
  format_duration (t.closed_at.getD now - t.created_at)

/-- The per-message block of the transcript loop: the timestamped author line,
    one line per attachment, the embed count line, and a blank separator. The
    strftime rendering of the timestamp is abstracted as its decimal numeral. -/
def renderMessage (m : DMessage) : String :=
  "[" ++ toString m.created_at ++ "] " ++ m.author ++ ": " ++ m.content ++ "\n"
  ++ String.join (m.attachments.map (fun att => "    📎 Attachment: " ++ att ++ "\n"))
  ++ (if m.embeds != 0 then "    📋 " ++ toString m.embeds ++ " embed(s)\n" else "")
  ++ "\n"

/-- The header block of generate_transcript, up to the FULL CONVERSATION LOG
    banner. -/
def transcriptHeader (t : Ticket) (now : Nat) : String :=
  "\nPAKISTAN RP SUPPORT TICKET TRANSCRIPT\n=====================================\n\nTicket ID: "
  ++ t.ticket_id ++ "\nCategory: " ++ t.category ++ "\nUrgency: " ++ t.urgency
  ++ "\nUser: " ++ t.username ++ " (ID: " ++ toString t.user_id ++ ")\nCreated: "
  ++ toString t.created_at ++ "\nClosed: "
  ++ (match t.closed_at with | some c => toString c | none => "N/A")
  ++ "\nDuration: " ++ calculate_duration t now ++ "\n\nInitial Description:\n"
  ++ t.description ++ "\n\nStaff Involved: "
  ++ (let s := String.intercalate ", " t.staff_involved
      if s == "" then "None" else s)
  ++ "\nClose Reason: " ++ (t.close_reason.getD "N/A")
  ++ "\n\n=====================================\nFULL CONVERSATION LOG\n=====================================\n\n"

/-- The TICKET SUMMARY footer block of generate_transcript. -/
def transcriptFooter (t : Ticket) (msgCount : Nat) (now : Nat) : String :=
  "\n=====================================\nTICKET SUMMARY\n=====================================\n\nTotal Messages: "
  ++ toString msgCount ++ "\nTicket Duration: " ++ calculate_duration t now
  ++ "\nResolution Status: " ++ (t.close_reason.getD "Open") ++ "\nGenerated: "
  ++ toString now ++ "\n\nPakistan RP Community Management System\n"

/-- generate_transcript (ticket_system.py 358-430): empty for an unknown ticket
    id; otherwise header, one rendered block per history message in order, and
    the summary footer. A missing channel yields an empty message list. -/
def generate_transcript (env : Env) (tickets : List (String × Ticket))
    (ticket_id : String) : String :=
  match lookupKey tickets ticket_id with
  | none => ""
  | some t =>
    let messages := (get_channel env t.channel_id).getD []
    (messages.foldl (fun acc m => acc ++ renderMessage m) (transcriptHeader t env.now))
      ++ transcriptFooter t messages.length env.now

/-- close_ticket (ticket_system.py 301-356): fail if the id is not active;
    otherwise mark the record closed, generate and save the transcript, bump
    the resolved statistic and delete the record from the active map. DM and
    log-channel delivery and the SQLite update are external best-effort
    side effects without feedback into this state and are not modeled. -/
def close_ticket (env : Env) (st : TicketState) (ticket_id : String)
    (closed_by_id : Nat) (reason : String) : TicketState × Bool :=
  match lookupKey st.active_tickets ticket_id with
  | none => (st, false)
  | some t =>
    let t1 := { t with status := "closed", closed_at := some env.now,
                       closed_by := some closed_by_id, close_reason := some reason }
    let tickets1 := st.active_tickets.map
      (fun kv => if kv.fst == ticket_id then (kv.fst, t1) else kv)
    let transcript := generate_transcript env tickets1 ticket_id
    ({ active_tickets := tickets1.filter (fun kv => kv.fst != ticket_id),
       tickets_resolved := st.tickets_resolved + 1,
       transcripts := st.transcripts ++ [(ticket_id, transcript)],
       deleted_channels := st.deleted_channels }, true)

/-- The bot's own user id (bot.user), the actor recorded by auto-closes. -/
def botUserId : Nat := 0

/-- The close-and-delete-channel action of one cleanup iteration: close the
    ticket as the bot with the fixed auto-close reason, then record the
    channel deletion. -/
def cleanup_close (env : Env) (st : TicketState) (tid : String)
    (cid : Nat) : TicketState :=
  { (close_ticket env st tid botUserId "Auto-closed due to inactivity").fst with
    deleted_channels :=
      (close_ticket env st tid botUserId
        "Auto-closed due to inactivity").fst.deleted_channels ++ [cid] }

/-- The loop body of cleanup_old_tickets for one snapshot entry: when the age
    since created_at exceeds the auto-close threshold and the channel still
    exists, close the ticket as the bot, delete the channel and count it. -/
def cleanup_step (env : Env) (auto_close_hours : Nat)
    (acc : TicketState × Nat) (kv : String × Ticket) : TicketState × Nat :=
  if env.now - kv.snd.created_at > auto_close_hours * 3600 then
    match get_channel env kv.snd.channel_id with
    | some _ => (cleanup_close env acc.fst kv.fst kv.snd.channel_id, acc.snd + 1)
    | none => acc
  else acc

/-- cleanup_old_tickets (ticket_system.py 532-551): walk a snapshot of the
    active tickets, applying cleanup_step to each. -/
def cleanup_old_tickets (env : Env) (auto_close_hours : Nat)
    (st : TicketState) : TicketState × Nat :=
  st.active_tickets.foldl (cleanup_step env auto_close_hours) (st, 0)

/-- log_message (ticket_system.py 553-575): in a channel whose name starts with
    ticket-, rebuild the ticket id as TKT- plus the uppercased second
    dash-separated part of the channel name; if that id is an active ticket,
    refresh its last_activity and record a staff author in staff_involved. -/
def log_message (tickets : List (String × Ticket)) (msg : DMessage)
    (now : Nat) : List (String × Ticket) :=
  if !strStartsWith msg.channel_name "ticket-" then tickets
  else
    let parts := (splitOnChar '-' msg.channel_name.data).map (fun cs => String.mk cs)
    if parts.length ≥ 2 then
      let ticket_id := "TKT-" ++ strToUpper (parts.getD 1 "")
      if hasKey tickets ticket_id then
        tickets.map (fun kv =>
          if kv.fst == ticket_id then
            let t1 := { kv.snd with last_activity := now }
            let t2 :=
              if msg.author_is_staff && !(t1.staff_involved.contains msg.author) then
                { t1 with staff_involved := t1.staff_involved ++ [msg.author] }
              else t1
            (kv.fst, t2)
          else kv)
      else tickets
    else tickets

/-- on_message (community_bot.py 519-529): ignore bot authors; forward messages
    in ticket channels to log_message. -/
def on_message (tickets : List (String × Ticket)) (msg : DMessage)
    (now : Nat) : List (String × Ticket) :=
  if msg.author_is_bot then tickets
  else if strStartsWith msg.channel_name "ticket-" then log_message tickets msg now
  else tickets

/-- The ticket id create_ticket generates from the incremented counter. -/
def ticketIdFor (counter : Nat) : String :=
  "TKT-" ++ ⟨zfill 4 counter⟩

/-- .replace(" ", "-"): for the single-character pattern this is a
    character-wise substitution. -/
def replaceSpaceDash (s : String) : String :=
  ⟨s.data.map (fun c => if c == ' ' then '-' else c)⟩

/-- The channel name create_ticket gives a ticket's channel
    (ticket_system.py 161). -/
def ticket_channel_name (ticket_id display_name : String) : String :=
  replaceSpaceDash ("ticket-" ++ strToLower ticket_id ++ "-" ++ display_name)

example : ticketIdFor 1 = "TKT-0001" := by decide

example : ticket_channel_name (ticketIdFor 1) "Ali Khan" = "ticket-tkt-0001-Ali-Khan" := by decide


/- ### Shared helper lemmas -/

theorem lookupKey_eq_none_iff {α : Type} (db : List (String × α)) (k : String) :
    lookupKey db k = none ↔ ∀ kv ∈ db, kv.fst ≠ k := by
  unfold lookupKey
  simp [List.find?_eq_none]

theorem check_user_violations_eq_count (vs : List Violation) (u : Nat)
    (r : String) (now : Nat) :
    check_user_violations vs u r now
      = (vs.filter (fun v => v.user_id == u && v.rule_id == r)).length := by
  unfold check_user_violations get_user_violations
  simp only [Bool.false_eq_true, if_false]
  rw [← List.countP_eq_length_filter, ← List.countP_eq_length_filter,
    List.countP_filter]
  exact List.countP_congr (fun a _ => by rw [Bool.and_comm])

/- ### C1 -/

/-- A rule whose punishments dict is present but has no rungs at all
    (obtainable through import_rules, which accepts arbitrary rule records). -/
def emptyLadderRule : Rule :=
  ⟨"Respect All Players", "All players must treat each other with respect.",
   "General Rules", "Behavior", [], "high", some ⟨none, none, none, none⟩⟩

/-- C1 counterexample: for a rule whose ladder has no rungs, a first offense
    yields no punishment at all — neither the severe rung (absent) nor the
    built-in default — refuting the claimed unconditional graceful fallback. -/
theorem c1_counterexample :
    get_appropriate_punishment [] [("GR001", emptyLadderRule)] 1 "GR001" 0 = none := by
  decide

/-- Modelled from the amended specification: rung selection by prior-offense
    count; for counts 0-2 a missing rung falls back to the severe rung (which
    may itself be absent, yielding no punishment), and for counts of 3 or more
    a missing severe rung falls back to the built-in default. -/
def spec_select_rung (p : PunishmentLadder) (n : Nat) : Option Punishment :=
  if 3 ≤ n then some (p.severe.getD repeatOffenderBan)
  else
    let rung :=
      if n = 0 then p.first_offense
      else if n = 1 then p.second_offense
      else p.third_offense
    match rung with
    | some x => some x
    | none => p.severe

/-- C1 (amended): the punishment for a new violation is determined by the count
    of the user's prior violation records for the rule, counted regardless of
    expiry (the count never consults expires_at); a count of 0 selects
    first_offense, 1 second_offense, 2 third_offense and 3 or more severe,
    where a missing first/second/third rung falls back to the severe rung
    (absent severe yielding no punishment) and a missing severe rung falls
    back to the built-in default; in particular for a full ladder successive
    violations yield first, second, third, severe, severe, … . -/
theorem punishment_escalation_ladder (vs : List Violation) (db : RulesDb)
    (u : Nat) (r : String) (now : Nat) (rule : Rule) (p : PunishmentLadder)
    (hr : lookupKey db r = some rule) (hp : rule.punishments = some p) :
    check_user_violations vs u r now
      = (vs.filter (fun v => v.user_id == u && v.rule_id == r)).length
  ∧ get_appropriate_punishment vs db u r now
      = spec_select_rung p (check_user_violations vs u r now)
  ∧ (∀ f s t sv, p.first_offense = some f → p.second_offense = some s →
      p.third_offense = some t → p.severe = some sv →
      get_appropriate_punishment vs db u r now = some (
        if check_user_violations vs u r now = 0 then f
        else if check_user_violations vs u r now = 1 then s
        else if check_user_violations vs u r now = 2 then t
        else sv)) := by
  refine ⟨check_user_violations_eq_count vs u r now, ?_, ?_⟩
  · simp only [get_appropriate_punishment, hr, hp, spec_select_rung]
    rcases hn : check_user_violations vs u r now with _ | _ | _ | n <;>
      cases hf : p.first_offense <;> cases hs : p.second_offense <;>
      cases ht : p.third_offense <;>
      simp [Option.orElse]
  · intro f s t sv hf hs ht hsv
    simp only [get_appropriate_punishment, hr, hp, hf, hs, ht, hsv]
    rcases hn : check_user_violations vs u r now with _ | _ | _ | n <;>
      simp [Option.orElse]

/-- The full sample punishment ladder of rule GR001 (rule_manager.py 151-176). -/
def fullLadder : PunishmentLadder :=
  ⟨some ⟨"warning", none, 5000, "Verbal warning + $5,000 fine"⟩,
   some ⟨"mute", some 120, 10000, "2 hour mute + $10,000 fine"⟩,
   some ⟨"temp_ban", some 1440, 25000, "24 hour ban + $25,000 fine"⟩,
   some ⟨"perm_ban", none, 0, "Permanent ban - no appeal"⟩⟩

/-- The sample rule GR001 (rule_manager.py 141-180). -/
def fullLadderRule : Rule :=
  ⟨"Respect All Players",
   "All players must treat each other with respect. Harassment, discrimination, or toxic behavior will result in immediate punishment.",
   "General Rules", "Behavior",
   ["respect", "harassment", "toxic", "behavior", "discrimination"], "high",
   some fullLadder⟩

theorem punishment_escalation_ladder_witness :
    lookupKey [("GR001", fullLadderRule)] "GR001" = some fullLadderRule
  ∧ get_appropriate_punishment [⟨1, "GR001", none⟩] [("GR001", fullLadderRule)]
      1 "GR001" 0
      = spec_select_rung fullLadder
          (check_user_violations [⟨1, "GR001", none⟩] 1 "GR001" 0) :=
  ⟨by decide,
   (punishment_escalation_ladder [⟨1, "GR001", none⟩] [("GR001", fullLadderRule)]
     1 "GR001" 0 fullLadderRule fullLadder (by decide) rfl).2.1⟩

/- ### C7 -/

/-- C7: a search with no query and no category returns the empty result list
    (and, the model being a pure function of the database, leaves it
    unchanged). -/
theorem search_no_query_no_category_empty (db : RulesDb) (lim : Nat) :
    search_rules db "" none lim = [] := rfl

/- ### C3 -/

/-- Scoring as the specification words it: 100 for a title substring, 80 per
    keyword equal to the query plus 40 per keyword merely containing it, 30
    for a content substring, 20 for a subcategory substring and 60 for a rule
    id substring (all on lowercased text). -/
def spec_rule_score (ql : String) (rule_id : String) (r : Rule) : Nat :=
  (if strIn ql (strToLower r.title) then 100 else 0)
  + 80 * r.keywords.countP (fun kw => ql == strToLower kw)
  + 40 * r.keywords.countP (fun kw => strIn ql (strToLower kw) && !(ql == strToLower kw))
  + (if strIn ql (strToLower r.content) then 30 else 0)
  + (if strIn ql (strToLower r.subcategory) then 20 else 0)
  + (if strIn ql (strToLower rule_id) then 60 else 0)

theorem keyword_fold_eq (ql : String) (kws : List String) (acc : Nat) :
    kws.foldl
      (fun acc kw =>
        if ql == strToLower kw then acc + 80
        else if strIn ql (strToLower kw) then acc + 40
        else acc) acc
    = acc + 80 * kws.countP (fun kw => ql == strToLower kw)
        + 40 * kws.countP (fun kw => strIn ql (strToLower kw) && !(ql == strToLower kw)) := by
  induction kws generalizing acc with
  | nil => simp
  | cons kw tl ih =>
    simp only [List.foldl_cons, List.countP_cons]
    cases h1 : (ql == strToLower kw) with
    | true =>
      simp only [if_true, Bool.not_true, Bool.and_false, Bool.false_eq_true,
        if_false, ih]
      omega
    | false =>
      cases h2 : strIn ql (strToLower kw) with
      | true =>
        simp only [if_true, if_false, Bool.false_eq_true, Bool.not_false,
          Bool.and_true, ih]
        omega
      | false =>
        simp only [if_false, Bool.false_eq_true, Bool.false_and, ih]
        omega

theorem rule_score_eq_spec (ql rid : String) (r : Rule) :
    rule_search_score ql rid r = spec_rule_score ql rid r := by
  unfold rule_search_score spec_rule_score
  rw [keyword_fold_eq]
  omega

theorem mem_search_rules_subset {db : RulesDb} {q : String} {cat : Option String}
    {lim : Nat} {h : SearchHit} (hm : h ∈ search_rules db q cat lim) :
    h ∈ searchHits db q cat := by
  unfold search_rules at hm
  split at hm
  · cases hm
  · exact (List.perm_insertionSort hitGE _).mem_iff.mp (List.mem_of_mem_take hm)

theorem mem_searchHits_elim {db : RulesDb} {q : String} {cat : Option String}
    {h : SearchHit} (hm : h ∈ searchHits db q cat) :
    ∃ kv, kv ∈ db ∧ h.rule_id = kv.fst ∧ h.rule = kv.snd
      ∧ h.search_score = hit_score q kv
      ∧ (match cat with
         | none => True
         | some c => c ≠ "" → kv.snd.category = c) := by
  unfold searchHits at hm
  rcases List.mem_filterMap.mp hm with ⟨kv, hkv, hf⟩
  by_cases hg : category_excludes cat kv.snd = true
  · rw [if_pos hg] at hf; cases hf
  · rw [if_neg hg] at hf
    by_cases hs : hit_score q kv > 0
    · rw [if_pos hs] at hf
      injection hf with h1
      subst h1
      refine ⟨kv, hkv, rfl, rfl, rfl, ?_⟩
      unfold category_excludes at hg
      match cat with
      | none => trivial
      | some c =>
        intro hc
        by_contra hne
        apply hg
        have h1 : c.isEmpty = false :=
          Bool.eq_false_iff.mpr (fun habs => hc ((String.isEmpty_iff c).mp habs))
        have h2 : (kv.snd.category != c) = true := by
          simp only [bne_iff_ne, ne_eq]
          exact hne
        simp [h1, h2]
    · rw [if_neg hs] at hf; cases hf

/-- C3: for a non-empty query, every returned hit's score is exactly the
    spec's scoring sum (title 100, keyword exact 80 / substring 40 summed over
    keywords, content 30, subcategory 20, id 60, case-insensitively); a
    supplied non-empty category excludes non-matching rules rather than
    scoring them; the priority weights are critical 1000, high 500, medium
    100, low 50; and the result list is ordered descending by score plus
    priority weight. -/
theorem search_scoring_and_ranking (db : RulesDb) (q : String)
    (cat : Option String) (lim : Nat) (hq : q ≠ "") :
    (∀ h ∈ search_rules db q cat lim,
        h.search_score = spec_rule_score (strToLower q) h.rule_id h.rule)
  ∧ (∀ c, cat = some c → c ≠ "" →
        ∀ h ∈ search_rules db q cat lim, h.rule.category = c)
  ∧ (priority_scores "critical" = 1000 ∧ priority_scores "high" = 500
      ∧ priority_scores "medium" = 100 ∧ priority_scores "low" = 50)
  ∧ List.Sorted hitGE (search_rules db q cat lim) := by
  have hq' : (q != "") = true := by simp [bne_iff_ne]; exact hq
  refine ⟨?_, ?_, ⟨rfl, rfl, rfl, rfl⟩, ?_⟩
  · intro h hm
    rcases mem_searchHits_elim (mem_search_rules_subset hm) with
      ⟨kv, _, hid, hrule, hscore, _⟩
    rw [hscore, hit_score, if_pos hq', hid, hrule]
    exact rule_score_eq_spec _ _ _
  · intro c hc hcne h hm
    rcases mem_searchHits_elim (mem_search_rules_subset hm) with
      ⟨kv, _, _, hrule, _, hcat⟩
    subst hc
    rw [hrule]
    exact hcat hcne
  · unfold search_rules
    split
    · simp
    · exact List.Pairwise.sublist (List.take_sublist _ _)
        (List.sorted_insertionSort hitGE _)

theorem search_scoring_and_ranking_witness :
    ("toxic" : String) ≠ ""
  ∧ List.Sorted hitGE (search_rules [("GR001", fullLadderRule)] "toxic" none 10) :=
  ⟨by decide,
   (search_scoring_and_ranking [("GR001", fullLadderRule)] "toxic" none 10
      (by decide)).2.2.2⟩

/- ### C4 -/

/-- A minimal rule used to populate a single category. -/
def flatRule : Rule :=
  ⟨"Title", "Content", "General Rules", "Behavior", [], "medium", none⟩

/-- Eleven rules, all in category General Rules: one more than the default
    search limit. -/
def db11 : RulesDb :=
  (List.range 11).map (fun i => (String.mk ('R' :: decimalChars i), flatRule))

/-- C4 counterexample: with the default limit of 10, a category holding 11
    rules yields only 10 results, so a rule of the category is omitted,
    refuting the claim that no rule of the category is ever omitted. -/
theorem category_listing_counterexample :
    (search_rules db11 "" (some "General Rules") 10).length = 10
  ∧ (db11.filter (fun kv => kv.snd.category == "General Rules")).length = 11 := by
  constructor
  · decide
  · decide

theorem searchHits_empty_query (db : RulesDb) (c : String) (hc : c ≠ "") :
    searchHits db "" (some c)
      = (db.filter (fun kv => kv.snd.category == c)).map
          (fun kv => ⟨kv.fst, kv.snd, 10⟩) := by
  have hie : c.isEmpty = false :=
    Bool.eq_false_iff.mpr (fun habs => hc ((String.isEmpty_iff c).mp habs))
  unfold searchHits
  induction db with
  | nil => rfl
  | cons kv tl ih =>
    rw [List.filterMap_cons, List.filter_cons]
    cases hcat : (kv.snd.category == c) with
    | true =>
      have hex : category_excludes (some c) kv.snd = false := by
        simp only [category_excludes, hie, Bool.not_false, Bool.true_and, bne,
          hcat, Bool.not_true]
      rw [hex]
      simp only [Bool.false_eq_true, if_false, if_true]
      rw [ih, List.map_cons]
      rfl
    | false =>
      have hex : category_excludes (some c) kv.snd = true := by
        simp only [category_excludes, hie, Bool.not_false, Bool.true_and, bne,
          hcat, Bool.not_false]
      rw [hex]
      simp only [if_true, Bool.false_eq_true, if_false]
      exact ih

/-- C4 (amended): searching with an empty query and a non-empty category C
    returns only rules of category C, each carrying the same flat score 10;
    and whenever the category holds at most limit rules, every rule of
    category C is among the results — with more than limit rules the list is
    truncated to the limit (see the counterexample). -/
theorem category_listing_with_limit (db : RulesDb) (c : String) (lim : Nat)
    (hc : c ≠ "") :
    (∀ h ∈ search_rules db "" (some c) lim,
        h.rule.category = c ∧ h.search_score = 10)
  ∧ ((db.filter (fun kv => kv.snd.category == c)).length ≤ lim →
      ∀ kv ∈ db, kv.snd.category = c →
        (⟨kv.fst, kv.snd, 10⟩ : SearchHit) ∈ search_rules db "" (some c) lim) := by
  constructor
  · intro h hm
    rcases mem_searchHits_elim (mem_search_rules_subset hm) with
      ⟨kv, _, _, hrule, hscore, hcat⟩
    refine ⟨hrule ▸ hcat hc, ?_⟩
    rw [hscore]
    rfl
  · intro hlen kv hkv hcat
    have hguard : (("" : String) == "" &&
        (match some c with | none => true | some c => c.isEmpty)) = false := by
      have hie : c.isEmpty = false :=
        Bool.eq_false_iff.mpr (fun habs => hc ((String.isEmpty_iff c).mp habs))
      simp [hie]
    unfold search_rules
    rw [hguard]
    simp only [Bool.false_eq_true, if_false]
    have hhits := searchHits_empty_query db c hc
    have hmem : (⟨kv.fst, kv.snd, 10⟩ : SearchHit) ∈ searchHits db "" (some c) := by
      rw [hhits]
      exact List.mem_map_of_mem _ (List.mem_filter.mpr ⟨hkv, by simp [hcat]⟩)
    have hlen2 : (List.insertionSort hitGE (searchHits db "" (some c))).length ≤ lim := by
      rw [(List.perm_insertionSort hitGE _).length_eq, hhits, List.length_map]
      exact hlen
    rw [List.take_of_length_le hlen2]
    exact (List.perm_insertionSort hitGE _).mem_iff.mpr hmem

theorem category_listing_with_limit_witness :
    ("General Rules" : String) ≠ ""
  ∧ (⟨"R", flatRule, 10⟩ : SearchHit) ∈ search_rules db11 "" (some "General Rules") 20 :=
  ⟨by decide,
   (category_listing_with_limit db11 "General Rules" 20 (by decide)).2
     (by decide) ("R", flatRule) (by decide) (by decide)⟩

/- ### C10 -/

/-- C10: search returns at most limit results, and every returned result ranks
    at least as high (by score plus priority weight) as every match the
    truncation dropped. -/
theorem search_limit_truncation (db : RulesDb) (q : String)
    (cat : Option String) (lim : Nat) :
    (search_rules db q cat lim).length ≤ lim
  ∧ (∀ h1 ∈ search_rules db q cat lim,
      ∀ h2 ∈ (List.insertionSort hitGE (searchHits db q cat)).drop lim,
        sort_key h2 ≤ sort_key h1) := by
  constructor
  · unfold search_rules
    split
    · simp
    · rw [List.length_take]
      exact min_le_left _ _
  · intro h1 hm1 h2 hm2
    have hm1' : h1 ∈ (List.insertionSort hitGE (searchHits db q cat)).take lim := by
      unfold search_rules at hm1
      split at hm1
      · cases hm1
      · exact hm1
    have hp := List.sorted_insertionSort hitGE (searchHits db q cat)
    rw [← List.take_append_drop lim (List.insertionSort hitGE (searchHits db q cat))] at hp
    exact (List.pairwise_append.mp hp).2.2 h1 hm1' h2 hm2

theorem search_limit_truncation_witness :
    (search_rules db11 "" (some "General Rules") 10).length ≤ 10
  ∧ (⟨"R10", flatRule, 10⟩ : SearchHit)
      ∈ (List.insertionSort hitGE (searchHits db11 "" (some "General Rules"))).drop 10
  ∧ sort_key (⟨"R10", flatRule, 10⟩ : SearchHit)
      ≤ sort_key (⟨"R", flatRule, 10⟩ : SearchHit) :=
  ⟨(search_limit_truncation db11 "" (some "General Rules") 10).1,
   by decide,
   (search_limit_truncation db11 "" (some "General Rules") 10).2
     ⟨"R", flatRule, 10⟩ (by decide) ⟨"R10", flatRule, 10⟩ (by decide)⟩

/- ### C2 -/

/-- A ticket created 100 hours ago whose last activity was 1 hour ago
    (clock: 3600000 s; created_at = now - 100 h; last_activity = now - 1 h). -/
def c2Ticket : Ticket :=
  ⟨"TKT-0001", 7, "ali", "Ali", 42, "Support", "Medium", 1, "need help",
   3240000, "open", none, none, none, [], 3596400⟩

def c2Env : Env := ⟨[(42, [])], 3600000⟩

def c2State : TicketState := ⟨[("TKT-0001", c2Ticket)], 0, [], []⟩

/-- C2: evaluation at the failing input. The ticket's last_activity lies well
    within the 72-hour threshold, yet the cleanup sweep closes it ("Auto-closed
    due to inactivity") and removes it from the active tickets, because the
    sweep compares against created_at instead of last_activity. -/
theorem cleanup_ignores_last_activity :
    c2Env.now - c2Ticket.last_activity ≤ 72 * 3600
  ∧ 72 * 3600 < c2Env.now - c2Ticket.created_at
  ∧ (cleanup_old_tickets c2Env 72 c2State).snd = 1
  ∧ lookupKey (cleanup_old_tickets c2Env 72 c2State).fst.active_tickets "TKT-0001"
      = none
  ∧ (cleanup_old_tickets c2Env 72 c2State).fst.tickets_resolved = 1 := by
  refine ⟨by decide, by decide, ?_, ?_, ?_⟩ <;> decide

/- ### C5 -/

/-- An open ticket as stored by create_ticket for id TKT-0001. -/
def c5Ticket : Ticket :=
  ⟨"TKT-0001", 7, "ali", "Ali", 42, "Support", "Medium", 1, "need help",
   0, "open", none, none, none, [], 0⟩

/-- A staff member's (non-bot) message in the channel create_ticket named for
    ticket TKT-0001. -/
def c5Msg : DMessage :=
  ⟨"Moderator#1", false, true, ticket_channel_name "TKT-0001" "Ali",
   "hello", 500, [], 0⟩

/-- C5: evaluation at the failing input. For the channel name create_ticket
    itself produces ("ticket-tkt-0001-Ali"), log_message rebuilds the ticket id
    from the second dash-separated part as "TKT-TKT", which matches no active
    ticket, so a staff member's non-bot message leaves the ticket record
    completely unchanged: last_activity stays 0 and staff_involved stays
    empty. -/
theorem log_message_misparses_ticket_id :
    ticket_channel_name "TKT-0001" "Ali" = "ticket-tkt-0001-Ali"
  ∧ c5Msg.author_is_bot = false
  ∧ c5Msg.author_is_staff = true
  ∧ on_message [("TKT-0001", c5Ticket)] c5Msg 500 = [("TKT-0001", c5Ticket)]
  ∧ c5Ticket.last_activity ≠ 500
  ∧ c5Ticket.staff_involved = [] := by
  refine ⟨by decide, by decide, by decide, ?_, by decide, by decide⟩
  decide

/- ### C6 -/

theorem close_ticket_not_active (env : Env) (st : TicketState) (tid : String)
    (cb : Nat) (r : String) (h : lookupKey st.active_tickets tid = none) :
    close_ticket env st tid cb r = (st, false) := by
  simp only [close_ticket, h]

theorem lookupKey_close_ticket_self (env : Env) (st : TicketState)
    (tid : String) (cb : Nat) (r : String) (t : Ticket)
    (h : lookupKey st.active_tickets tid = some t) :
    lookupKey (close_ticket env st tid cb r).fst.active_tickets tid = none := by
  simp only [close_ticket, h]
  apply (lookupKey_eq_none_iff _ _).mpr
  intro kv hkv
  have h2 := (List.mem_filter.mp hkv).2
  simpa [bne_iff_ne] using h2

theorem lookupKey_close_ticket_other (env : Env) (st : TicketState)
    (k : String) (cb : Nat) (r : String) (tid : String)
    (h1 : lookupKey st.active_tickets tid = none) :
    lookupKey (close_ticket env st k cb r).fst.active_tickets tid = none := by
  cases hcl : lookupKey st.active_tickets k with
  | none => rw [close_ticket_not_active _ _ _ _ _ hcl]; exact h1
  | some t =>
    simp only [close_ticket, hcl]
    apply (lookupKey_eq_none_iff _ _).mpr
    intro kv' hkv'
    have hmem := List.mem_of_mem_filter hkv'
    rcases List.mem_map.mp hmem with ⟨kv0, hkv0, heq⟩
    have hfst : kv'.fst = kv0.fst := by
      rw [← heq]
      split <;> rfl
    rw [hfst]
    exact (lookupKey_eq_none_iff _ _).mp h1 kv0 hkv0

theorem close_ticket_transcripts_other (env : Env) (st : TicketState)
    (k : String) (cb : Nat) (r : String) (tid : String) (hk : k ≠ tid) :
    (close_ticket env st k cb r).fst.transcripts.filter (fun p => p.fst == tid)
      = st.transcripts.filter (fun p => p.fst == tid) := by
  cases hcl : lookupKey st.active_tickets k with
  | none => rw [close_ticket_not_active _ _ _ _ _ hcl]
  | some t =>
    simp only [close_ticket, hcl]
    rw [List.filter_append]
    have hone : ∀ s : String,
        List.filter (fun p : String × String => p.fst == tid) [(k, s)] = [] := by
      intro s
      simp [hk]
    rw [hone, List.append_nil]

theorem cleanup_step_preserves_missing (env : Env) (hrs : Nat)
    (acc : TicketState × Nat) (kv : String × Ticket) (tid : String)
    (hk : kv.fst ≠ tid)
    (h1 : lookupKey acc.fst.active_tickets tid = none) :
    lookupKey (cleanup_step env hrs acc kv).fst.active_tickets tid = none
  ∧ (cleanup_step env hrs acc kv).fst.transcripts.filter (fun p => p.fst == tid)
      = acc.fst.transcripts.filter (fun p => p.fst == tid) := by
  unfold cleanup_step
  by_cases hage : env.now - kv.snd.created_at > hrs * 3600
  · rw [if_pos hage]
    cases hch : get_channel env kv.snd.channel_id with
    | none => exact ⟨h1, rfl⟩
    | some hist =>
      refine ⟨?_, ?_⟩
      · exact lookupKey_close_ticket_other env acc.fst kv.fst botUserId
          "Auto-closed due to inactivity" tid h1
      · exact close_ticket_transcripts_other env acc.fst kv.fst botUserId
          "Auto-closed due to inactivity" tid hk
  · rw [if_neg hage]
    exact ⟨h1, rfl⟩

theorem cleanup_fold_preserves_missing (env : Env) (hrs : Nat) (tid : String) :
    ∀ (l : List (String × Ticket)) (acc : TicketState × Nat),
      (∀ kv ∈ l, kv.fst ≠ tid) →
      lookupKey acc.fst.active_tickets tid = none →
      lookupKey (l.foldl (cleanup_step env hrs) acc).fst.active_tickets tid = none
    ∧ (l.foldl (cleanup_step env hrs) acc).fst.transcripts.filter
          (fun p => p.fst == tid)
        = acc.fst.transcripts.filter (fun p => p.fst == tid) := by
  intro l
  induction l with
  | nil => exact fun acc _ h1 => ⟨h1, rfl⟩
  | cons kv tl ih =>
    intro acc hl h1
    have hstep := cleanup_step_preserves_missing env hrs acc kv tid
      (hl kv (List.mem_cons_self kv tl)) h1
    have htl := ih (cleanup_step env hrs acc kv)
      (fun kv' hkv' => hl kv' (List.mem_cons_of_mem kv hkv')) hstep.1
    exact ⟨htl.1, htl.2.trans hstep.2⟩

/-- C6: a ticket transitions to CLOSED at most once. Closing an id that is not
    active fails and leaves the state untouched. A successful close removes
    the id from the active tickets and bumps the resolved statistic once; any
    later manual close of the same id fails and changes nothing (in
    particular no second transcript and no second statistic bump), and a later
    cleanup sweep neither revives the id nor adds a transcript for it. -/
theorem ticket_closes_at_most_once (env env2 : Env) (st : TicketState)
    (tid : String) (cb cb2 : Nat) (r r2 : String) :
    (lookupKey st.active_tickets tid = none →
        close_ticket env st tid cb r = (st, false))
  ∧ (∀ t, lookupKey st.active_tickets tid = some t →
        lookupKey (close_ticket env st tid cb r).fst.active_tickets tid = none
      ∧ (close_ticket env st tid cb r).fst.tickets_resolved
          = st.tickets_resolved + 1
      ∧ close_ticket env2 (close_ticket env st tid cb r).fst tid cb2 r2
          = ((close_ticket env st tid cb r).fst, false))
  ∧ (lookupKey st.active_tickets tid = none → ∀ hrs,
        (cleanup_old_tickets env hrs st).fst.transcripts.filter
            (fun p => p.fst == tid)
          = st.transcripts.filter (fun p => p.fst == tid)
      ∧ lookupKey (cleanup_old_tickets env hrs st).fst.active_tickets tid
          = none) := by
  refine ⟨?_, ?_, ?_⟩
  · exact close_ticket_not_active env st tid cb r
  · intro t h
    refine ⟨lookupKey_close_ticket_self env st tid cb r t h, ?_, ?_⟩
    · simp only [close_ticket, h]
    · exact close_ticket_not_active env2 _ tid cb2 r2
        (lookupKey_close_ticket_self env st tid cb r t h)
  · intro h hrs
    have hl : ∀ kv ∈ st.active_tickets, kv.fst ≠ tid :=
      (lookupKey_eq_none_iff _ _).mp h
    have hf := cleanup_fold_preserves_missing env hrs tid st.active_tickets (st, 0) hl h
    exact ⟨hf.2, hf.1⟩

/-- A second ticket and state used to witness the C6 theorem. -/
def c6Env : Env := ⟨[(42, [])], 4000⟩

def c6Ticket : Ticket :=
  ⟨"TKT-0002", 8, "bob", "Bob", 42, "Support", "Low", 0, "question",
   1000, "open", none, none, none, [], 1000⟩

def c6State : TicketState := ⟨[("TKT-0002", c6Ticket)], 5, [], []⟩

theorem ticket_closes_at_most_once_witness :
    lookupKey c6State.active_tickets "TKT-0002" = some c6Ticket
  ∧ (lookupKey (close_ticket c6Env c6State "TKT-0002" 1 "done").fst.active_tickets
        "TKT-0002" = none
     ∧ (close_ticket c6Env c6State "TKT-0002" 1 "done").fst.tickets_resolved = 5 + 1
     ∧ close_ticket c6Env (close_ticket c6Env c6State "TKT-0002" 1 "done").fst
         "TKT-0002" 2 "again"
         = ((close_ticket c6Env c6State "TKT-0002" 1 "done").fst, false)) :=
  ⟨by decide,
   (ticket_closes_at_most_once c6Env c6Env c6State "TKT-0002" 1 2 "done" "again").2.1
     c6Ticket (by decide)⟩

/- ### C8 -/

theorem join_cons (x : String) (l : List String) :
    String.join (x :: l) = x ++ String.join l := by
  have hgen : ∀ (l : List String) (init : String),
      l.foldl (fun r s => r ++ s) init = init ++ String.join l := by
    intro l
    induction l with
    | nil =>
      intro init
      show init = init ++ String.join []
      rw [show String.join [] = "" from rfl, String.append_empty]
    | cons a as ih =>
      intro init
      show as.foldl _ (init ++ a) = init ++ String.join (a :: as)
      rw [ih (init ++ a)]
      have h2 : String.join (a :: as) = a ++ String.join as := by
        show as.foldl _ ("" ++ a) = a ++ String.join as
        rw [String.empty_append, ih a]
      rw [h2, String.append_assoc]
  show l.foldl _ ("" ++ x) = x ++ String.join l
  rw [String.empty_append, hgen l x]

theorem strFoldl_eq_append_join (l : List String) (init : String) :
    l.foldl (fun r s => r ++ s) init = init ++ String.join l := by
  induction l generalizing init with
  | nil =>
    show init = init ++ String.join []
    rw [show String.join [] = "" from rfl, String.append_empty]
  | cons a as ih =>
    show as.foldl _ (init ++ a) = init ++ String.join (a :: as)
    rw [ih (init ++ a), join_cons, String.append_assoc]

theorem join_append_cons (A : List String) (x : String) (B : List String) :
    String.join (A ++ x :: B) = String.join A ++ x ++ String.join B := by
  induction A with
  | nil =>
    rw [List.nil_append, join_cons]
    rw [show String.join [] = "" from rfl, String.empty_append]
  | cons a A ih =>
    rw [List.cons_append, join_cons, ih, join_cons]
    rw [String.append_assoc, String.append_assoc, String.append_assoc]

/-- The substring relation the transcript-completeness claim uses: the needle
    occurs contiguously inside the hay. -/
def appears_in (needle hay : String) : Prop :=
  ∃ p q, hay = p ++ needle ++ q

theorem appears_in_wrap (a b x y : String) (h : appears_in x y) :
    appears_in x (a ++ y ++ b) := by
  rcases h with ⟨p, q, rfl⟩
  refine ⟨a ++ p, q ++ b, ?_⟩
  simp [String.append_assoc]

theorem generate_transcript_eq (env : Env) (tickets : List (String × Ticket))
    (tid : String) (t : Ticket) (msgs : List DMessage)
    (ht : lookupKey tickets tid = some t)
    (hc : get_channel env t.channel_id = some msgs) :
    generate_transcript env tickets tid
      = transcriptHeader t env.now ++ String.join (msgs.map renderMessage)
        ++ transcriptFooter t msgs.length env.now := by
  simp only [generate_transcript, ht, hc, Option.getD_some]
  rw [← List.foldl_map renderMessage (fun r s => r ++ s) msgs
      (transcriptHeader t env.now),
    strFoldl_eq_append_join]

/-- C8: for a ticket being closed (present in the active map, channel history
    fetched oldest-first), the transcript is exactly the header block, then
    the rendered blocks of all history messages in order, then the footer
    summary block; consequently each message's timestamped author/content line
    appears in the transcript between its predecessors and successors, and
    each of its attachments appears in its block. -/
theorem transcript_complete (env : Env) (tickets : List (String × Ticket))
    (tid : String) (t : Ticket) (msgs : List DMessage)
    (ht : lookupKey tickets tid = some t)
    (hc : get_channel env t.channel_id = some msgs) :
    generate_transcript env tickets tid
      = transcriptHeader t env.now ++ String.join (msgs.map renderMessage)
        ++ transcriptFooter t msgs.length env.now
  ∧ (∀ l1 m l2, msgs = l1 ++ m :: l2 →
      generate_transcript env tickets tid
        = (transcriptHeader t env.now ++ String.join (l1.map renderMessage))
          ++ renderMessage m
          ++ (String.join (l2.map renderMessage)
              ++ transcriptFooter t msgs.length env.now))
  ∧ (∀ m ∈ msgs,
      appears_in
        ("[" ++ toString m.created_at ++ "] " ++ m.author ++ ": "
          ++ m.content ++ "\n")
        (generate_transcript env tickets tid)
      ∧ ∀ att ∈ m.attachments,
          appears_in ("    📎 Attachment: " ++ att ++ "\n")
            (generate_transcript env tickets tid)) := by
  have heq := generate_transcript_eq env tickets tid t msgs ht hc
  have hsplit : ∀ l1 m l2, msgs = l1 ++ m :: l2 →
      generate_transcript env tickets tid
        = (transcriptHeader t env.now ++ String.join (l1.map renderMessage))
          ++ renderMessage m
          ++ (String.join (l2.map renderMessage)
              ++ transcriptFooter t msgs.length env.now) := by
    intro l1 m l2 hm
    rw [heq]
    have hmap : msgs.map renderMessage
        = l1.map renderMessage ++ renderMessage m :: l2.map renderMessage := by
      rw [hm, List.map_append, List.map_cons]
    rw [hmap, join_append_cons]
    simp [String.append_assoc]
  refine ⟨heq, hsplit, ?_⟩
  intro m hm
  rcases List.append_of_mem hm with ⟨l1, l2, hsp⟩
  have htr := hsplit l1 m l2 hsp
  constructor
  · have hrm : appears_in
        ("[" ++ toString m.created_at ++ "] " ++ m.author ++ ": "
          ++ m.content ++ "\n") (renderMessage m) := by
      refine ⟨"", String.join (m.attachments.map
          (fun att => "    📎 Attachment: " ++ att ++ "\n"))
        ++ ((if m.embeds != 0 then "    📋 " ++ toString m.embeds ++ " embed(s)\n"
             else "") ++ "\n"), ?_⟩
      simp [renderMessage, String.append_assoc, String.empty_append]
    have := appears_in_wrap
      (transcriptHeader t env.now ++ String.join (l1.map renderMessage))
      (String.join (l2.map renderMessage) ++ transcriptFooter t msgs.length env.now)
      _ _ hrm
    rw [← htr] at this
    exact this
  · intro att hatt
    rcases List.append_of_mem hatt with ⟨a1, a2, hasp⟩
    have hrm : appears_in ("    📎 Attachment: " ++ att ++ "\n")
        (renderMessage m) := by
      refine ⟨"[" ++ toString m.created_at ++ "] " ++ m.author ++ ": "
          ++ m.content ++ "\n"
          ++ String.join (a1.map (fun a => "    📎 Attachment: " ++ a ++ "\n")),
        String.join (a2.map (fun a => "    📎 Attachment: " ++ a ++ "\n"))
          ++ ((if m.embeds != 0 then "    📋 " ++ toString m.embeds ++ " embed(s)\n"
               else "") ++ "\n"), ?_⟩
      rw [renderMessage]
      conv_lhs => rw [hasp]
      rw [List.map_append, List.map_cons, join_append_cons]
      simp [String.append_assoc]
    have := appears_in_wrap
      (transcriptHeader t env.now ++ String.join (l1.map renderMessage))
      (String.join (l2.map renderMessage) ++ transcriptFooter t msgs.length env.now)
      _ _ hrm
    rw [← htr] at this
    exact this

def c8Msg : DMessage :=
  ⟨"ali#1", false, false, "ticket-tkt-0003-Ali", "my game crashed", 120,
   ["https://cdn.example/shot.png"], 1⟩

def c8Ticket : Ticket :=
  ⟨"TKT-0003", 7, "ali#1", "Ali", 43, "Bug Report", "High", 4, "crash report",
   100, "open", none, none, none, [], 120⟩

def c8Env : Env := ⟨[(43, [c8Msg])], 9999⟩

theorem transcript_complete_witness :
    lookupKey [("TKT-0003", c8Ticket)] "TKT-0003" = some c8Ticket
  ∧ get_channel c8Env c8Ticket.channel_id = some [c8Msg]
  ∧ generate_transcript c8Env [("TKT-0003", c8Ticket)] "TKT-0003"
      = transcriptHeader c8Ticket c8Env.now
        ++ String.join ([c8Msg].map renderMessage)
        ++ transcriptFooter c8Ticket 1 c8Env.now :=
  ⟨by decide, by decide,
   (transcript_complete c8Env [("TKT-0003", c8Ticket)] "TKT-0003" c8Ticket
     [c8Msg] (by decide) (by decide)).1⟩

/- ### C9 -/

theorem digit_char_val {d : Nat} (hd : d < 10) :
    isDigitChar (Char.ofNat (48 + d)) = true
  ∧ digitVal (Char.ofNat (48 + d)) = d := by
  interval_cases d <;> exact ⟨by decide, by decide⟩

theorem decAux_all_digits : ∀ (fuel n : Nat),
    (decAux fuel n).all isDigitChar = true := by
  intro fuel
  induction fuel with
  | zero => intro n; rfl
  | succ f ih =>
    intro n
    cases n with
    | zero => rfl
    | succ m =>
      simp only [decAux, List.all_append]
      rw [ih]
      have hd := (digit_char_val (d := (m + 1) % 10)
        (Nat.mod_lt _ (by norm_num))).1
      simp [hd]

theorem decAux_foldl : ∀ (fuel n : Nat), n ≤ fuel →
    (decAux fuel n).foldl (fun a c => 10 * a + digitVal c) 0 = n := by
  intro fuel
  induction fuel with
  | zero =>
    intro n hn
    have h0 : n = 0 := by omega
    subst h0
    rfl
  | succ f ih =>
    intro n hn
    cases n with
    | zero => rfl
    | succ m =>
      simp only [decAux]
      rw [List.foldl_append]
      have hdiv : (m + 1) / 10 ≤ f := by
        have := Nat.div_lt_self (Nat.succ_pos m) (by norm_num : 1 < 10)
        omega
      rw [ih _ hdiv]
      simp only [List.foldl_cons, List.foldl_nil]
      have hd := (digit_char_val (d := (m + 1) % 10)
        (Nat.mod_lt _ (by norm_num))).2
      rw [hd]
      exact Nat.div_add_mod (m + 1) 10

theorem decimalChars_ne_nil {n : Nat} (hn : 0 < n) : decimalChars n ≠ [] := by
  cases n with
  | zero => omega
  | succ m =>
    show decAux (m + 1) (m + 1) ≠ []
    simp [decAux]

theorem replicate_zero_digits (k : Nat) :
    (List.replicate k '0').all isDigitChar = true := by
  induction k with
  | zero => rfl
  | succ k ih =>
    have h0 : isDigitChar '0' = true := by decide
    simp [List.replicate_succ, List.all_cons, h0, ih]

theorem replicate_zero_foldl (k : Nat) :
    (List.replicate k '0').foldl (fun a c => 10 * a + digitVal c) 0 = 0 := by
  induction k with
  | zero => rfl
  | succ k ih =>
    rw [List.replicate_succ, List.foldl_cons]
    exact ih

theorem parseDecimal_zfill {n : Nat} (hn : 0 < n) (w : Nat) :
    parseDecimal (zfill w n) = some n := by
  unfold parseDecimal zfill
  have hne : decimalChars n ≠ [] := decimalChars_ne_nil hn
  have hcond : (!(List.replicate (w - (decimalChars n).length) '0'
        ++ decimalChars n).isEmpty
      && (List.replicate (w - (decimalChars n).length) '0'
        ++ decimalChars n).all isDigitChar) = true := by
    have h1 : (List.replicate (w - (decimalChars n).length) '0'
        ++ decimalChars n) ≠ [] := by
      intro habs
      exact hne (List.append_eq_nil.mp habs).2
    have h2 : (List.replicate (w - (decimalChars n).length) '0'
        ++ decimalChars n).isEmpty = false := by
      cases hl : (List.replicate (w - (decimalChars n).length) '0'
          ++ decimalChars n) with
      | nil => exact absurd hl h1
      | cons a l => rfl
    have h3 : (decimalChars n).all isDigitChar = true := decAux_all_digits n n
    rw [h2, List.all_append, replicate_zero_digits, h3]
    rfl
  rw [if_pos hcond]
  congr 1
  rw [List.foldl_append, replicate_zero_foldl]
  exact decAux_foldl n n (le_refl n)

theorem le_max_num_foldl (pfx : String) :
    ∀ (l : RulesDb) (init : Nat),
      init ≤ l.foldl (fun m kv =>
        match suffix_num pfx kv.fst with
        | some n => max m n
        | none => m) init := by
  intro l
  induction l with
  | nil => intro init; exact le_refl _
  | cons kv tl ih =>
    intro init
    rw [List.foldl_cons]
    have hstep : init ≤ (match suffix_num pfx kv.fst with
        | some n => max init n
        | none => init) := by
      cases suffix_num pfx kv.fst with
      | none => exact le_refl _
      | some n => exact le_max_left _ _
    exact le_trans hstep (ih _)

theorem mem_le_max_num (pfx : String) :
    ∀ (l : RulesDb) (init : Nat) (kv : String × Rule) (n : Nat),
      kv ∈ l → suffix_num pfx kv.fst = some n →
      n ≤ l.foldl (fun m kv =>
        match suffix_num pfx kv.fst with
        | some n => max m n
        | none => m) init := by
  intro l
  induction l with
  | nil =>
    intro init kv n h
    cases h
  | cons kv0 tl ih =>
    intro init kv n hmem hs
    rw [List.foldl_cons]
    rcases List.mem_cons.mp hmem with heq | htl
    · subst heq
      have hstep : n ≤ (match suffix_num pfx kv.fst with
          | some j => max init j
          | none => init) := by
        rw [hs]
        exact le_max_right _ _
      exact le_trans hstep (le_max_num_foldl pfx tl _)
    · exact ih _ kv n htl hs

theorem gen_rule_id_fresh (db : RulesDb) (pfx : String) :
    ∀ kv ∈ db, kv.fst ≠ gen_rule_id db pfx := by
  intro kv hkv heq
  have hsuffix : suffix_num pfx kv.fst = some (max_num db pfx + 1) := by
    rw [heq]
    unfold gen_rule_id suffix_num
    have hpre : pfx.data.isPrefixOf
        (pfx.data ++ zfill 3 (max_num db pfx + 1)) = true := by
      rw [List.isPrefixOf_iff_prefix]
      exact List.prefix_append _ _
    rw [if_pos hpre, List.drop_left]
    exact parseDecimal_zfill (Nat.succ_pos _) 3
  have hle : max_num db pfx + 1 ≤ max_num db pfx :=
    mem_le_max_num pfx db 0 kv _ hkv hsuffix
  omega

theorem filter_append_fresh {α : Type} (db : List (String × α)) (k : String)
    (v : α) (hfresh : ∀ kv ∈ db, kv.fst ≠ k) :
    (db ++ [(k, v)]).filter (fun kv => kv.fst != k) = db := by
  rw [List.filter_append]
  have h1 : db.filter (fun kv => kv.fst != k) = db :=
    List.filter_eq_self.mpr (fun kv hkv => by
      simp only [bne_iff_ne, ne_eq]
      exact hfresh kv hkv)
  have h2 : List.filter (fun kv : String × α => kv.fst != k) [(k, v)] = [] := by
    simp
  rw [h1, h2, List.append_nil]

theorem lookupKey_append_fresh {α : Type} (db : List (String × α)) (k : String)
    (v : α) (hfresh : ∀ kv ∈ db, kv.fst ≠ k) :
    lookupKey (db ++ [(k, v)]) k = some v := by
  unfold lookupKey
  rw [List.find?_append]
  have h1 : db.find? (fun kv => kv.fst == k) = none := by
    rw [List.find?_eq_none]
    intro kv hkv
    simp only [beq_iff_eq]
    exact hfresh kv hkv
  rw [h1]
  simp

/-- C9: when persisting a newly added rule fails, add_rule reports failure and
    the in-memory database is exactly what it was before the call — in
    particular the freshly generated rule id is not a key of it; when
    persistence succeeds, add_rule reports success together with the new rule
    id, and that id is present in the database. -/
theorem add_rule_rollback (db : RulesDb) (cats : CategoriesDb)
    (category subcategory title content : String) (kws : List String)
    (prio : String) (pun : Option PunishmentLadder) (subs : List String)
    (htitle : title ≠ "") (hcontent : content ≠ "")
    (hcat : lookupKey cats category = some subs)
    (hsub : subs.contains subcategory = true) :
    (add_rule db cats category subcategory title content kws prio pun false
        = (db, (false, "Failed to save rule to database"))
     ∧ ∀ kv ∈ db, kv.fst ≠ gen_rule_id db (get_category_pfx category))
  ∧ ((add_rule db cats category subcategory title content kws prio pun true).snd
        = (true, gen_rule_id db (get_category_pfx category))
     ∧ ∃ r, lookupKey
          (add_rule db cats category subcategory title content kws prio pun true).fst
          (gen_rule_id db (get_category_pfx category)) = some r) := by
  have hT : (title == "" || content == "") = false := by
    simp only [Bool.or_eq_false_iff, beq_eq_false_iff_ne, ne_eq]
    exact ⟨htitle, hcontent⟩
  have hfresh := gen_rule_id_fresh db (get_category_pfx category)
  refine ⟨⟨?_, hfresh⟩, ?_, ?_⟩
  · simp only [add_rule, hT, Bool.false_eq_true, if_false, hcat, hsub,
      Bool.not_true]
    rw [filter_append_fresh db _ _ hfresh]
  · simp only [add_rule, hT, Bool.false_eq_true, if_false, hcat, hsub,
      Bool.not_true, if_true]
  · refine ⟨new_rule_record category subcategory title content kws prio pun, ?_⟩
    simp only [add_rule, hT, Bool.false_eq_true, if_false, hcat, hsub,
      Bool.not_true, if_true]
    exact lookupKey_append_fresh db _ _ hfresh

def c9Cats : CategoriesDb := [("General Rules", ["Behavior", "Communication"])]

def c9Db : RulesDb := [("GR001", fullLadderRule)]

theorem add_rule_rollback_witness :
    ("Player Safety" : String) ≠ ""
  ∧ lookupKey c9Cats "General Rules" = some ["Behavior", "Communication"]
  ∧ (add_rule c9Db c9Cats "General Rules" "Behavior" "Player Safety"
        "Keep players safe." ["safety"] "high" none false
        = (c9Db, (false, "Failed to save rule to database"))
     ∧ ∀ kv ∈ c9Db, kv.fst ≠ gen_rule_id c9Db (get_category_pfx "General Rules")) :=
  ⟨by decide, by decide,
   (add_rule_rollback c9Db c9Cats "General Rules" "Behavior" "Player Safety"
     "Keep players safe." ["safety"] "high" none ["Behavior", "Communication"]
     (by decide) (by decide) (by decide) (by decide)).1⟩
